import Mathlib

/-!
Verification of the sitemap controller of the ecommerce backend
(`controllers/sitemapController.js`, served through the route wiring in
`server.js`).

JavaScript strings are embedded as `List Char`; the helper `str` turns a
Lean string literal into that representation.  Each definition below mirrors
one construct of the source file; comments cite the JavaScript it embeds.
-/

namespace Sitemap

/-- View a Lean string literal as the character list embedding a JS string. -/
def str (s : String) : List Char := s.data

/-! ### escapeXml

The source (`function escapeXml(str)`) chains five
`String.prototype.replaceAll` calls, each with a single-character pattern.
`replaceAll` with a one-character pattern replaces every occurrence of that
character, which is what `replaceAllChar` performs. -/

/-- `s.replaceAll(pat, rep)` for a single-character pattern `pat`. -/
def replaceAllChar (pat : Char) (rep : List Char) : List Char → List Char
  | [] => []
  | c :: rest => (if c = pat then rep else [c]) ++ replaceAllChar pat rep rest

/-- `escapeXml`: `.replaceAll("&","&amp;").replaceAll("<","&lt;")
.replaceAll(">","&gt;").replaceAll('"',"&quot;").replaceAll("'","&apos;")`,
applied in source order (ampersand first). -/
def escapeXml (s : List Char) : List Char :=
  replaceAllChar '\'' (str ("&apos;"))
    (replaceAllChar '"' (str ("&quot;"))
      (replaceAllChar '>' (str ("&gt;"))
        (replaceAllChar '<' (str ("&lt;"))
          (replaceAllChar '&' (str ("&amp;")) s))))

/-! ### Dates

Catalog items carry JavaScript `Date` values (`updatedAt`, `createdAt`).
A valid `Date` is embedded by its UTC calendar fields;
`toISOString` renders the canonical `YYYY-MM-DDTHH:mm:ss.sssZ` string that
`new Date(lastmod).toISOString()` produces. -/

structure JsDate where
  year : Nat
  month : Nat
  day : Nat
  hour : Nat
  minute : Nat
  second : Nat
  ms : Nat
deriving DecidableEq

/-- Decimal digits of `n`, most significant first (fuel-based so that it
reduces in the kernel). -/
def natDigitsAux : Nat → Nat → List Char → List Char
  | 0, _, acc => acc
  | fuel + 1, n, acc =>
      if n < 10 then Char.ofNat (48 + n) :: acc
      else natDigitsAux fuel (n / 10) (Char.ofNat (48 + n % 10) :: acc)

def natDigits (n : Nat) : List Char := natDigitsAux (n + 1) n []

def leftPad (c : Char) (w : Nat) (l : List Char) : List Char :=
  List.replicate (w - l.length) c ++ l

def pad2 (n : Nat) : List Char := leftPad '0' 2 (natDigits n)
def pad3 (n : Nat) : List Char := leftPad '0' 3 (natDigits n)
def pad4 (n : Nat) : List Char := leftPad '0' 4 (natDigits n)

/-- `Date.prototype.toISOString` on a valid date. -/
def toISOString (d : JsDate) : List Char :=
  pad4 d.year ++ str ("-") ++ pad2 d.month ++ str ("-") ++ pad2 d.day ++ str ("T") ++
  pad2 d.hour ++ str (":") ++ pad2 d.minute ++ str (":") ++ pad2 d.second ++
  str (".") ++ pad3 d.ms ++ str ("Z")

/-- `s.split(sep)[0]`: the segment before the first occurrence of `sep`
(the whole string when `sep` does not occur). -/
def jsSplitHead (sep : Char) (l : List Char) : List Char :=
  l.takeWhile (fun c => c ≠ sep)

/-! ### urlEntry -/

/-- `const lastmodTag = lastmod ?
  `<lastmod>$\x7bnew Date(lastmod).toISOString().split("T")[0]\x7d</lastmod>` : ""`.
A `Date` object is always truthy, so the condition is just presence. -/
def lastmodTag : Option JsDate → List Char
  | some d => str ("<lastmod>") ++ jsSplitHead 'T' (toISOString d) ++ str ("</lastmod>")
  | none => []

/-- `function urlEntry (loc, lastmod = null, changefreq = "weekly",
priority = 0.8)`: the exact template literal of the source.  The
`changefreq` and `priority` arguments reach the document through JS
string interpolation; they are carried here in their rendered form. -/
def urlEntry (loc : List Char) (lastmod : Option JsDate)
    (changefreq : List Char) (priority : List Char) : List Char :=
  str ("\n  <url>\n    <loc>") ++ escapeXml loc ++ str ("</loc>\n    ") ++
  lastmodTag lastmod ++
  str ("\n    <changefreq>") ++ changefreq ++ str ("</changefreq>\n    <priority>") ++
  priority ++ str ("</priority>\n  </url>")

/-! ### encodeURIComponent -/

/-- Upper-case hexadecimal digit. -/
def hexDigit (n : Nat) : Char :=
  if n < 10 then Char.ofNat (48 + n) else Char.ofNat (55 + n)

/-- UTF-8 bytes of the code point `n`. -/
def utf8Bytes (n : Nat) : List Nat :=
  if n < 128 then [n]
  else if n < 2048 then [192 + n / 64, 128 + n % 64]
  else if n < 65536 then [224 + n / 4096, 128 + n / 64 % 64, 128 + n % 64]
  else [240 + n / 262144, 128 + n / 4096 % 64, 128 + n / 64 % 64, 128 + n % 64]

/-- The characters `encodeURIComponent` leaves unescaped:
`A-Z a-z 0-9 - _ . ! ~ * ' ( )`. -/
def uriUnreservedChar (c : Char) : Bool :=
  c.isAlpha || c.isDigit || c = '-' || c = '_' || c = '.' || c = '!' ||
  c = '~' || c = '*' || c = '\'' || c = '(' || c = ')'

/-- `encodeURIComponent`: unreserved characters pass through, every other
character is percent-encoded byte by byte (UTF-8, upper-case hex). -/
def encodeURIComponent (s : List Char) : List Char :=
  s.flatMap (fun c =>
    if uriUnreservedChar c then [c]
    else (utf8Bytes c.toNat).flatMap (fun b => ['%', hexDigit (b / 16), hexDigit (b % 16)]))

/-! ### Catalog items and static pages -/

/-- One projected catalog record: `Product.find(\x7b\x7d, "slug updatedAt createdAt")`
returns `_id` plus these fields; `slug` may be absent or empty. -/
structure CatalogItem where
  _id : List Char
  slug : Option (List Char)
  updatedAt : Option JsDate
  createdAt : Option JsDate

structure StaticPage where
  path : List Char
  changefreq : List Char
  priority : List Char
deriving DecidableEq

/-- The hardcoded `staticPages` list of `buildSitemapXml`; priorities are
carried in their JS number-to-string rendering (`1.0` renders as `1`). -/
def staticPages : List StaticPage :=
  [ ⟨str ("/"), str ("daily"), str ("1")⟩,
    ⟨str ("/about"), str ("monthly"), str ("0.7")⟩,
    ⟨str ("/fashion"), str ("weekly"), str ("0.9")⟩,
    ⟨str ("/featured"), str ("weekly"), str ("0.9")⟩,
    ⟨str ("/electronics"), str ("weekly"), str ("0.9")⟩,
    ⟨str ("/beauty"), str ("weekly"), str ("0.85")⟩,
    ⟨str ("/sports"), str ("weekly"), str ("0.85")⟩,
    ⟨str ("/products"), str ("daily"), str ("1")⟩,
    ⟨str ("/cart"), str ("daily"), str ("0.8")⟩,
    ⟨str ("/my-orders"), str ("daily"), str ("0.7")⟩,
    ⟨str ("/login"), str ("monthly"), str ("0.5")⟩,
    ⟨str ("/policy"), str ("monthly"), str ("0.6")⟩ ]

/-- `siteUrl.replace(/\/$/, "")`: drop one trailing slash when present. -/
def jsStripTrailingSlash (s : List Char) : List Char :=
  if s.getLast? = some '/' then s.dropLast else s

/-- Static-page loop body:
`urlEntry(\x7b loc, changefreq: p.changefreq, priority: p.priority \x7d)` with
`loc = siteUrl.replace(/\/$/,"") + p.path` and no lastmod. -/
def staticEntry (siteUrl : List Char) (p : StaticPage) : List Char :=
  urlEntry (jsStripTrailingSlash siteUrl ++ p.path) none p.changefreq p.priority

/-- `prod.slug ? `product/$\x7bencodeURIComponent(prod.slug)\x7d` :
`product/$\x7bprod._id\x7d``; a missing or empty slug is falsy. -/
def identifierOf (p : CatalogItem) : List Char :=
  match p.slug with
  | some s => if s = [] then str ("product/") ++ p._id
              else str ("product/") ++ encodeURIComponent s
  | none => str ("product/") ++ p._id

/-- `prod.updatedAt ?? prod.createdAt ?? null`. -/
def jsNullish (a b : Option JsDate) : Option JsDate :=
  match a with
  | some d => some d
  | none => b

/-- Product loop body: `urlEntry(\x7b loc, lastmod, changefreq: "weekly",
priority: 0.8 \x7d)` with `loc = siteUrl.replace(/\/$/,"") + "/" + identifier`. -/
def productEntry (siteUrl : List Char) (p : CatalogItem) : List Char :=
  urlEntry (jsStripTrailingSlash siteUrl ++ str ("/") ++ identifierOf p)
    (jsNullish p.updatedAt p.createdAt) (str ("weekly")) (str ("0.8"))

/-- The literal prefix of the output template up to the item list. -/
def xmlHeader : List Char :=
  str ("<?xml version=\"1.0\" encoding=\"UTF-8\"?>\n<urlset\n    xmlns=\"http://www.sitemaps.org/schemas/sitemap/0.9\">\n")

/-- `buildSitemapXml(\x7b siteUrl \x7d)` specialised to a string `siteUrl`
(its documented contract) and to the already-fetched product list: builds
the static entries, then the product entries, joins them with newlines and
wraps them in the declaration and the `urlset` root element. -/
def buildSitemapXml (siteUrl : List Char) (products : List CatalogItem) : List Char :=
  xmlHeader ++
  List.intercalate (str ("\n"))
    (staticPages.map (staticEntry siteUrl) ++ products.map (productEntry siteUrl)) ++
  str ("\n</urlset>")

/-! ### serveSitemap

`serveSitemap(req, res)` reads `process.env`, a module-level cache slot
(`cachedXml`, `cacheTimestamp`), `Date.now()` (twice on the rebuild path),
and the catalog collaborator (`Product.find` inside `buildSitemapXml`).
The embedding makes each of those an explicit argument and returns the
HTTP response, the new cache slot and the list of `console.error` lines.

Two JavaScript facts matter for faithfulness:

* line 334 declares `const SITE_URL = ["http://localhost:5173"]` and lines
  336/338 then assign to that `const` binding — evaluating either
  assignment throws `TypeError: Assignment to constant variable.`, which
  the surrounding `try/catch` turns into a 500 response;
* the default `SITE_URL` is an array of strings, and the first static-page
  iteration of `buildSitemapXml` evaluates `siteUrl.replace(/\/$/, "")` —
  an array has no `replace` method, so this throws a `TypeError` as well.
-/

/-- The value bound to `SITE_URL`: a string, or an array of strings
(`env.split(",")` and the hardcoded default are arrays). -/
inductive SiteUrlVal
  | jsString (s : List Char)
  | jsArray (xs : List (List Char))

/-- An exception carried to the `catch` block, with its `message`. -/
inductive JsErr
  | typeError (msg : List Char)
  | jsError (msg : List Char)

def errMessage : JsErr → List Char
  | .typeError m => m
  | .jsError m => m

/-- The call `buildSitemapXml(\x7b siteUrl: SITE_URL \x7d)` as `serveSitemap`
performs it.  The `await Product.find(...)` result is the `catalog`
argument (an exception when the lookup fails).  When `siteUrl` is a
string the function returns `buildSitemapXml`; when it is an array, the
first loop iteration evaluates `siteUrl.replace`, which is not a function
on an array, so a `TypeError` propagates. -/
def buildSitemapXmlRun (siteUrl : SiteUrlVal)
    (catalog : Except JsErr (List CatalogItem)) : Except JsErr (List Char) :=
  match catalog with
  | .error e => .error e
  | .ok products =>
    match siteUrl with
    | .jsString s => .ok (buildSitemapXml s products)
    | .jsArray _ => .error (.typeError (str ("siteUrl.replace is not a function")))

/-- The three environment variables `serveSitemap` consults. -/
structure Env where
  SITE_URL : Option (List Char)
  CLIENT_URL : Option (List Char)
  SITEMAP_CACHE_TTL_MS : Option (List Char)

/-- The module-level cache slot: `let cachedXml = null; let cacheTimestamp = 0`. -/
structure SitemapCache where
  cachedXml : Option (List Char)
  cacheTimestamp : Int

inductive HttpResponse
  | ok (contentType : List Char) (body : List Char)
  | err (status : Nat) (body : List Char)

/-- Truthiness of `process.env.X`: present and non-empty. -/
def jsTruthyEnv : Option (List Char) → Bool
  | none => false
  | some s => decide (s ≠ [])

/-- An exact fraction `num / den` (`den` is positive for every value the
parser builds; the representation is not normalised).  `Number(...)`
results are modelled as exact rationals rather than float64: rounding and
overflow to `Infinity` are not modelled, which leaves every value exact
and does not affect the freshness comparison for configuration-sized
values. -/
structure JsRat where
  num : Int
  den : Nat
deriving DecidableEq

/-- A JS number as `Number(string)` can produce it: `NaN`, a finite value,
or one of the two infinities (`Number("Infinity")`, `Number("-Infinity")`). -/
inductive JsTtl
  | nan
  | num (q : JsRat)
  | inf
  | negInf
deriving DecidableEq

def digitsToNat (s : List Char) : Nat :=
  s.foldl (fun a c => 10 * a + (c.toNat - 48)) 0

/-- The characters `Number` trims before parsing: ECMAScript WhiteSpace
(tab, VT, FF, space, NBSP, BOM, Unicode space separators) and line
terminators (LF, CR, LS, PS). -/
def jsWhitespace (c : Char) : Bool :=
  c = ' ' || c = '\t' || c = '\n' || c = '\r' || c.toNat = 11 || c.toNat = 12 ||
  c.toNat = 160 || c.toNat = 0xfeff || c.toNat = 0x2028 || c.toNat = 0x2029 ||
  c.toNat = 0x1680 || (decide (0x2000 ≤ c.toNat) && decide (c.toNat ≤ 0x200a)) ||
  c.toNat = 0x202f || c.toNat = 0x205f || c.toNat = 0x3000

def jsTrim (s : List Char) : List Char :=
  (((s.dropWhile jsWhitespace).reverse).dropWhile jsWhitespace).reverse

def radixDigitVal (c : Char) : Option Nat :=
  if c.isDigit then some (c.toNat - 48)
  else if 'a' ≤ c ∧ c ≤ 'f' then some (c.toNat - 87)
  else if 'A' ≤ c ∧ c ≤ 'F' then some (c.toNat - 55)
  else none

def isRadixDigit (base : Nat) (c : Char) : Bool :=
  match radixDigitVal c with
  | some v => decide (v < base)
  | none => false

def radixVal (base : Nat) (l : List Char) : Nat :=
  l.foldl (fun a c => base * a + (radixDigitVal c).getD 0) 0

/-- The `ExponentPart` tail after `e`/`E`: an optional sign and at least
one decimal digit, consuming the rest of the string. -/
def parseExponent (l : List Char) : Option Int :=
  match l with
  | '+' :: rest =>
    if rest ≠ [] ∧ rest.all Char.isDigit then some ((digitsToNat rest : Int)) else none
  | '-' :: rest =>
    if rest ≠ [] ∧ rest.all Char.isDigit then some (-(digitsToNat rest : Int)) else none
  | rest =>
    if rest ≠ [] ∧ rest.all Char.isDigit then some ((digitsToNat rest : Int)) else none

/-- Scale a fraction by `10 ^ e`. -/
def applyExp (q : JsRat) : Int → JsRat
  | .ofNat k => ⟨q.num * 10 ^ k, q.den⟩
  | .negSucc k => ⟨q.num, q.den * 10 ^ (k + 1)⟩

/-- An unsigned `DecimalLiteral` consuming the whole string:
`digits [. [digits]] [exp]` or `. digits [exp]` (so `"5."`, `".5"` and
`"5.e3"` parse, while `"."`, `"e3"` and trailing garbage do not). -/
def parseUnsignedDec (l : List Char) : Option JsRat :=
  let ip := l.takeWhile Char.isDigit
  let r1 := l.drop ip.length
  match r1 with
  | [] => if ip = [] then none else some ⟨(digitsToNat ip : Int), 1⟩
  | '.' :: r2 =>
    let fp := r2.takeWhile Char.isDigit
    let r3 := r2.drop fp.length
    if ip = [] ∧ fp = [] then none
    else
      let mant : JsRat :=
        ⟨((digitsToNat ip * 10 ^ fp.length + digitsToNat fp : Nat) : Int), 10 ^ fp.length⟩
      match r3 with
      | [] => some mant
      | 'e' :: r4 => (parseExponent r4).map (applyExp mant)
      | 'E' :: r4 => (parseExponent r4).map (applyExp mant)
      | _ => none
  | 'e' :: r4 =>
    if ip = [] then none
    else (parseExponent r4).map (applyExp ⟨(digitsToNat ip : Int), 1⟩)
  | 'E' :: r4 =>
    if ip = [] then none
    else (parseExponent r4).map (applyExp ⟨(digitsToNat ip : Int), 1⟩)
  | _ => none

/-- A `0x`/`0o`/`0b` literal body: at least one digit of the radix,
consuming the rest of the string (no sign, no fraction, no exponent). -/
def jsNumberRadix (base : Nat) (r : List Char) : JsTtl :=
  if r ≠ [] ∧ r.all (isRadixDigit base) then .num ⟨(radixVal base r : Int), 1⟩ else .nan

/-- The signed tail of a `StrDecimalLiteral`: `Infinity` or an unsigned
decimal literal, with the sign applied. -/
def jsNumberDecOrInf (negative : Bool) (infVal : JsTtl) (r : List Char) : JsTtl :=
  if r = str ("Infinity") then infVal
  else
    match parseUnsignedDec r with
    | some q => .num (if negative then ⟨-q.num, q.den⟩ else q)
    | none => .nan

/-- `Number(s)` on a string, per the `StringNumericLiteral` grammar: trim
whitespace; empty is 0; `0x`/`0X`, `0o`/`0O`, `0b`/`0B` radix literals
(unsigned); otherwise an optionally signed decimal literal or `Infinity`;
anything else is `NaN`.  Values are exact (see `JsRat`). -/
def jsNumberOfString (s : List Char) : JsTtl :=
  match jsTrim s with
  | [] => .num ⟨0, 1⟩
  | '0' :: 'x' :: r => jsNumberRadix 16 r
  | '0' :: 'X' :: r => jsNumberRadix 16 r
  | '0' :: 'o' :: r => jsNumberRadix 8 r
  | '0' :: 'O' :: r => jsNumberRadix 8 r
  | '0' :: 'b' :: r => jsNumberRadix 2 r
  | '0' :: 'B' :: r => jsNumberRadix 2 r
  | '+' :: r => jsNumberDecOrInf false .inf r
  | '-' :: r => jsNumberDecOrInf true .negInf r
  | t => jsNumberDecOrInf false .inf t

/-- `const CACHE_TTL_MS = process.env.SITEMAP_CACHE_TTL_MS ?
Number(process.env.SITEMAP_CACHE_TTL_MS) : 60 * 60 * 1000`.
The ternary tests truthiness, so an unset or empty variable yields the
one-hour default. -/
def parseTtl : Option (List Char) → JsTtl
  | none => .num ⟨3600000, 1⟩
  | some s => if s = [] then .num ⟨3600000, 1⟩ else jsNumberOfString s

/-- `d < ttl` in JS: every comparison with `NaN` is false, every finite
value is below `Infinity` and above `-Infinity`; for a finite
`ttl = num / den` (with `den > 0` for every parsed value),
`d < num / den` is `d * den < num`. -/
def jsLtTtl (d : Int) : JsTtl → Bool
  | .nan => false
  | .num t => decide (d * (t.den : Int) < t.num)
  | .inf => true
  | .negInf => false

/-- The guard `cachedXml && now - cacheTimestamp < CACHE_TTL_MS`
(a null or empty cached string is falsy). -/
def sitemapCacheFresh (ttlVar : Option (List Char)) (cache : SitemapCache)
    (now : Int) : Bool :=
  match cache.cachedXml with
  | some c => decide (c ≠ []) && jsLtTtl (now - cache.cacheTimestamp) (parseTtl ttlVar)
  | none => false

def serverErrorBody : List Char := str ("Server error generating sitemap")

/-- The `catch` block: `console.error("Error generating sitemap:", msg)`
then `res.status(500).send("Server error generating sitemap")`; the cache
slot is left untouched. -/
def sitemapCatch (cache : SitemapCache) (e : JsErr) :
    HttpResponse × SitemapCache × List (List Char) :=
  (.err 500 serverErrorBody, cache,
    [str ("Error generating sitemap: ") ++ errMessage e])

/-- The rebuild path (lines 348-353): build, store the result together
with `Date.now()`, answer with the XML; a thrown exception reaches the
`catch` block instead. -/
def sitemapRebuild (siteUrl : SiteUrlVal) (cache : SitemapCache) (nowAfter : Int)
    (catalog : Except JsErr (List CatalogItem)) :
    HttpResponse × SitemapCache × List (List Char) :=
  match buildSitemapXmlRun siteUrl catalog with
  | .ok xml => (.ok (str ("application/xml")) xml, ⟨some xml, nowAfter⟩, [])
  | .error e => sitemapCatch cache e

/-- `serveSitemap`: `env` is `process.env`, `cache` the module slot,
`now` the `Date.now()` of the freshness check, `nowAfter` the
`Date.now()` stored after a successful rebuild, `catalog` the outcome of
the catalog lookup.  When `SITE_URL` (or, failing that, `CLIENT_URL`) is
truthy the code assigns to the `const SITE_URL` binding, which throws
before anything else happens; otherwise `SITE_URL` keeps its default
array value, which is what the rebuild passes to the builder. -/
def serveSitemap (env : Env) (cache : SitemapCache) (now nowAfter : Int)
    (catalog : Except JsErr (List CatalogItem)) :
    HttpResponse × SitemapCache × List (List Char) :=
  if jsTruthyEnv env.SITE_URL then
    sitemapCatch cache (.typeError (str ("Assignment to constant variable.")))
  else if jsTruthyEnv env.CLIENT_URL then
    sitemapCatch cache (.typeError (str ("Assignment to constant variable.")))
  else if sitemapCacheFresh env.SITEMAP_CACHE_TTL_MS cache now then
    (.ok (str ("application/xml")) ((cache.cachedXml).getD []), cache, [])
  else
    sitemapRebuild (.jsArray [str ("http://localhost:5173")]) cache nowAfter catalog

/-! ### Specification-side predicates

These decidable predicates state the properties the spec asserts about the
generated text; they are compared against the source-derived definitions
above. -/

/-- `leadsWith p l`: the list `p` is an initial segment of `l`. -/
def leadsWith : List Char → List Char → Bool
  | [], _ => true
  | _ :: _, [] => false
  | p :: ps, c :: cs => p = c && leadsWith ps cs

/-- The four reserved characters that may never appear raw in escaped text
(a raw ampersand is handled separately, since the escapes themselves
contain one). -/
def badRaw (c : Char) : Bool :=
  c = '<' || c = '>' || c = '"' || c = '\''

/-- After an ampersand, one of the five XML entity tails must follow. -/
def entityTail (rest : List Char) : Bool :=
  leadsWith (str ("amp;")) rest || leadsWith (str ("lt;")) rest ||
  leadsWith (str ("gt;")) rest || leadsWith (str ("quot;")) rest ||
  leadsWith (str ("apos;")) rest

/-- Totally escaped text: no raw `< > " '` anywhere, and every `&` starts
one of the five XML entities. -/
def okEsc : List Char → Bool
  | [] => true
  | c :: rest =>
    if badRaw c then false
    else if c = '&' then entityTail rest && okEsc rest
    else okEsc rest

/-- Number of positions of `l` at which the pattern `pat` occurs. -/
def countSub (pat : List Char) : List Char → Nat
  | [] => 0
  | c :: rest => (if leadsWith pat (c :: rest) then 1 else 0) + countSub pat rest

/-- Ambient request-time state (clock and module cache slot), made explicit
to state that `buildSitemapXml` depends on neither. -/
structure World where
  now : Int
  cache : SitemapCache

/-- `buildSitemapXml` evaluated in an ambient world: its body references
neither `Date.now()` nor the cache slot, so the world is unused. -/
def buildSitemapXmlInWorld (_w : World) (siteUrl : List Char)
    (products : List CatalogItem) : List Char :=
  buildSitemapXml siteUrl products

/-- What one input character contributes to the escaped output: each of the
five reserved characters becomes its entity, anything else passes through. -/
def escChar (c : Char) : List Char :=
  if c = '&' then str ("&amp;")
  else if c = '<' then str ("&lt;")
  else if c = '>' then str ("&gt;")
  else if c = '"' then str ("&quot;")
  else if c = '\'' then str ("&apos;")
  else [c]

/-! ### Lemmas about escaping -/

theorem replaceAllChar_append (pat : Char) (rep : List Char) (a b : List Char) :
    replaceAllChar pat rep (a ++ b) = replaceAllChar pat rep a ++ replaceAllChar pat rep b := by
  induction a with
  | nil => rfl
  | cons c rest ih => simp [replaceAllChar, ih]

theorem escapeXml_append (a b : List Char) :
    escapeXml (a ++ b) = escapeXml a ++ escapeXml b := by
  simp [escapeXml, replaceAllChar_append]

theorem escapeXml_single (c : Char) : escapeXml [c] = escChar c := by
  by_cases h1 : c = '&'
  · subst h1; rfl
  by_cases h2 : c = '<'
  · subst h2; rfl
  by_cases h3 : c = '>'
  · subst h3; rfl
  by_cases h4 : c = '"'
  · subst h4; rfl
  by_cases h5 : c = '\''
  · subst h5; rfl
  simp [escapeXml, replaceAllChar, escChar, h1, h2, h3, h4, h5]

/-- The five chained `replaceAll` calls act independently on each input
character: ampersands are escaped first, and the ampersands introduced by
the later entity replacements are never re-examined, so the whole chain is
the per-character map `escChar`. -/
theorem escapeXml_eq_flatMap (l : List Char) : escapeXml l = l.flatMap escChar := by
  induction l with
  | nil => rfl
  | cons c rest ih =>
    have h : c :: rest = [c] ++ rest := rfl
    rw [h, escapeXml_append, escapeXml_single, ih]
    simp

theorem okEsc_cons_safe (c : Char) (rest : List Char)
    (h1 : badRaw c = false) (h2 : c ≠ '&') : okEsc (c :: rest) = okEsc rest := by
  simp [okEsc, h1, h2]

theorem okEsc_amp (rest : List Char) :
    okEsc ('&' :: 'a' :: 'm' :: 'p' :: ';' :: rest) = okEsc rest := by
  simp [okEsc, badRaw, entityTail, leadsWith, str]

theorem okEsc_lt (rest : List Char) :
    okEsc ('&' :: 'l' :: 't' :: ';' :: rest) = okEsc rest := by
  simp [okEsc, badRaw, entityTail, leadsWith, str]

theorem okEsc_gt (rest : List Char) :
    okEsc ('&' :: 'g' :: 't' :: ';' :: rest) = okEsc rest := by
  simp [okEsc, badRaw, entityTail, leadsWith, str]

theorem okEsc_quot (rest : List Char) :
    okEsc ('&' :: 'q' :: 'u' :: 'o' :: 't' :: ';' :: rest) = okEsc rest := by
  simp [okEsc, badRaw, entityTail, leadsWith, str]

theorem okEsc_apos (rest : List Char) :
    okEsc ('&' :: 'a' :: 'p' :: 'o' :: 's' :: ';' :: rest) = okEsc rest := by
  simp [okEsc, badRaw, entityTail, leadsWith, str]

theorem okEsc_escChar_append (c : Char) (rest : List Char) :
    okEsc (escChar c ++ rest) = okEsc rest := by
  by_cases h1 : c = '&'
  · subst h1
    show okEsc ('&' :: 'a' :: 'm' :: 'p' :: ';' :: rest) = okEsc rest
    exact okEsc_amp rest
  by_cases h2 : c = '<'
  · subst h2
    show okEsc ('&' :: 'l' :: 't' :: ';' :: rest) = okEsc rest
    exact okEsc_lt rest
  by_cases h3 : c = '>'
  · subst h3
    show okEsc ('&' :: 'g' :: 't' :: ';' :: rest) = okEsc rest
    exact okEsc_gt rest
  by_cases h4 : c = '"'
  · subst h4
    show okEsc ('&' :: 'q' :: 'u' :: 'o' :: 't' :: ';' :: rest) = okEsc rest
    exact okEsc_quot rest
  by_cases h5 : c = '\''
  · subst h5
    show okEsc ('&' :: 'a' :: 'p' :: 'o' :: 's' :: ';' :: rest) = okEsc rest
    exact okEsc_apos rest
  have hc : escChar c = [c] := by simp [escChar, h1, h2, h3, h4, h5]
  rw [hc]
  exact okEsc_cons_safe c rest (by simp [badRaw, h2, h3, h4, h5]) h1

theorem okEsc_flatMap_escChar (l : List Char) : okEsc (l.flatMap escChar) = true := by
  induction l with
  | nil => rfl
  | cons c rest ih =>
    have h : (c :: rest).flatMap escChar = escChar c ++ rest.flatMap escChar := by simp
    rw [h, okEsc_escChar_append]
    exact ih

theorem mem_escChar_not_badRaw (d c : Char) (hd : d ∈ escChar c) : badRaw d = false := by
  by_cases h1 : c = '&'
  · subst h1
    have hd' : d ∈ ['&', 'a', 'm', 'p', ';'] := hd
    simp at hd'
    rcases hd' with h | h | h | h | h <;> subst h <;> rfl
  by_cases h2 : c = '<'
  · subst h2
    have hd' : d ∈ ['&', 'l', 't', ';'] := hd
    simp at hd'
    rcases hd' with h | h | h | h <;> subst h <;> rfl
  by_cases h3 : c = '>'
  · subst h3
    have hd' : d ∈ ['&', 'g', 't', ';'] := hd
    simp at hd'
    rcases hd' with h | h | h | h <;> subst h <;> rfl
  by_cases h4 : c = '"'
  · subst h4
    have hd' : d ∈ ['&', 'q', 'u', 'o', 't', ';'] := hd
    simp at hd'
    rcases hd' with h | h | h | h | h | h <;> subst h <;> rfl
  by_cases h5 : c = '\''
  · subst h5
    have hd' : d ∈ ['&', 'a', 'p', 'o', 's', ';'] := hd
    simp at hd'
    rcases hd' with h | h | h | h | h | h <;> subst h <;> rfl
  have hc : escChar c = [c] := by simp [escChar, h1, h2, h3, h4, h5]
  rw [hc] at hd
  simp at hd
  subst hd
  simp [badRaw, h2, h3, h4, h5]

/-! ### Lemmas about date rendering -/

theorem natDigitsAux_isDigit (fuel : Nat) : ∀ (n : Nat) (acc : List Char),
    (∀ c ∈ acc, c.isDigit = true) → ∀ c ∈ natDigitsAux fuel n acc, c.isDigit = true := by
  induction fuel with
  | zero => intro n acc hacc c hc; exact hacc c hc
  | succ fuel ih =>
    intro n acc hacc c hc
    rw [natDigitsAux] at hc
    by_cases h : n < 10
    · rw [if_pos h] at hc
      rcases List.mem_cons.mp hc with h1 | h1
      · subst h1
        interval_cases n <;> rfl
      · exact hacc c h1
    · rw [if_neg h] at hc
      refine ih (n / 10) _ ?_ c hc
      intro d hd
      rcases List.mem_cons.mp hd with h1 | h1
      · subst h1
        have hm : n % 10 < 10 := Nat.mod_lt _ (by norm_num)
        set k := n % 10 with hk
        interval_cases k <;> rfl
      · exact hacc d h1

theorem natDigits_isDigit (n : Nat) : ∀ c ∈ natDigits n, c.isDigit = true :=
  natDigitsAux_isDigit (n + 1) n [] (by intro c hc; cases hc)

theorem isDigit_ne (c : Char) (h : c.isDigit = true) : c ≠ 'T' ∧ c ≠ ':' := by
  constructor <;> intro he <;> subst he <;> simp [Char.isDigit] at h

theorem jsSplitHead_append (a b : List Char) (ha : ∀ c ∈ a, c ≠ 'T') :
    jsSplitHead 'T' (a ++ 'T' :: b) = a := by
  induction a with
  | nil => simp [jsSplitHead]
  | cons c rest ih =>
    have hc : c ≠ 'T' := ha c (List.mem_cons_self c rest)
    have hrest : ∀ d ∈ rest, d ≠ 'T' := fun d hd => ha d (List.mem_cons_of_mem c hd)
    have ih' := ih hrest
    have hpc : decide (c ≠ 'T') = true := decide_eq_true hc
    simp only [jsSplitHead] at ih' ⊢
    rw [List.cons_append, List.takeWhile_cons, hpc]
    simp only [if_true]
    rw [ih']

/-- The date part of the canonical ISO rendering: `YYYY-MM-DD`, no
time-of-day. -/
def isoDatePart (d : JsDate) : List Char :=
  pad4 d.year ++ str ("-") ++ pad2 d.month ++ str ("-") ++ pad2 d.day

theorem mem_leftPad (c : Char) (w : Nat) (l : List Char) (d : Char)
    (hd : d ∈ leftPad c w l) : d = c ∨ d ∈ l := by
  rcases List.mem_append.mp hd with h | h
  · exact Or.inl (List.eq_of_mem_replicate h)
  · exact Or.inr h

theorem mem_isoDatePart_ne_T (d : JsDate) : ∀ c ∈ isoDatePart d, c ≠ 'T' := by
  intro c hc
  simp only [isoDatePart, List.append_assoc, List.mem_append] at hc
  have hdig : ∀ (n w : Nat), c ∈ leftPad '0' w (natDigits n) → c ≠ 'T' := by
    intro n w h
    rcases mem_leftPad '0' w (natDigits n) c h with h1 | h1
    · subst h1; decide
    · exact (isDigit_ne c (natDigits_isDigit n c h1)).1
  rcases hc with h | h | h | h | h
  · exact hdig _ _ h
  · simp [str] at h; subst h; decide
  · exact hdig _ _ h
  · simp [str] at h; subst h; decide
  · exact hdig _ _ h

/-- `new Date(lastmod).toISOString().split("T")[0]` is exactly the
`YYYY-MM-DD` calendar-date part. -/
theorem isoDateOnly (d : JsDate) :
    jsSplitHead 'T' (toISOString d) = isoDatePart d := by
  have h : toISOString d = isoDatePart d ++ 'T' ::
      (pad2 d.hour ++ str (":") ++ pad2 d.minute ++ str (":") ++ pad2 d.second ++
       str (".") ++ pad3 d.ms ++ str ("Z")) := by
    simp [toISOString, isoDatePart, str]
  rw [h]
  exact jsSplitHead_append _ _ (mem_isoDatePart_ne_T d)

/-! ### Shared helper lemmas -/

theorem escapeXml_all_not_badRaw (l : List Char) :
    (escapeXml l).all (fun c => !(badRaw c)) = true := by
  rw [escapeXml_eq_flatMap, List.all_eq_true]
  intro c hc
  rcases List.mem_flatMap.mp hc with ⟨a, _, hca⟩
  simp [mem_escChar_not_badRaw c a hca]

/-- Every build result starts with the XML declaration. -/
theorem buildSitemapXml_decl (base : List Char) (products : List CatalogItem) :
    ∃ t, buildSitemapXml base products =
      str ("<?xml version=\"1.0\" encoding=\"UTF-8\"?>") ++ t := by
  refine ⟨str ("\n<urlset\n    xmlns=\"http://www.sitemaps.org/schemas/sitemap/0.9\">\n") ++
    List.intercalate (str ("\n"))
      (staticPages.map (staticEntry base) ++ products.map (productEntry base)) ++
    str ("\n</urlset>"), ?_⟩
  have hx : xmlHeader = str ("<?xml version=\"1.0\" encoding=\"UTF-8\"?>") ++
      str ("\n<urlset\n    xmlns=\"http://www.sitemaps.org/schemas/sitemap/0.9\">\n") := by decide
  rw [buildSitemapXml, hx]
  simp

/-! ### Claim theorems -/

/-- C3: every string passed through the escaping function comes out
totally escaped — the result contains no raw `< > " '` at all, and every
ampersand in it starts one of the five XML entities, so input text can
never break out of its markup context. -/
theorem spec_C3_escaping_total (l : List Char) :
    okEsc (escapeXml l) = true ∧ (escapeXml l).all (fun c => !(badRaw c)) = true := by
  constructor
  · rw [escapeXml_eq_flatMap]
    exact okEsc_flatMap_escChar l
  · exact escapeXml_all_not_badRaw l

/-- C6: a catalog item with a truthy slug is rendered at the
percent-encoded slug path, one without a slug at the identifier path; the
last-modified value is the update timestamp when present, else the
creation timestamp; a present last-modified date is rendered date-only as
`YYYY-MM-DD` (no time-of-day) and an absent one omits the element. -/
theorem spec_C6_product_entries (base : List Char) (p : CatalogItem) :
    (∀ s, p.slug = some s → s ≠ [] →
      productEntry base p =
        urlEntry (jsStripTrailingSlash base ++ str ("/product/") ++ encodeURIComponent s)
          (jsNullish p.updatedAt p.createdAt) (str ("weekly")) (str ("0.8"))) ∧
    (p.slug = none →
      productEntry base p =
        urlEntry (jsStripTrailingSlash base ++ str ("/product/") ++ p._id)
          (jsNullish p.updatedAt p.createdAt) (str ("weekly")) (str ("0.8"))) ∧
    (∀ d, p.updatedAt = some d → jsNullish p.updatedAt p.createdAt = some d) ∧
    (p.updatedAt = none → jsNullish p.updatedAt p.createdAt = p.createdAt) ∧
    (∀ d, lastmodTag (some d) =
      str ("<lastmod>") ++
        (pad4 d.year ++ str ("-") ++ pad2 d.month ++ str ("-") ++ pad2 d.day) ++
      str ("</lastmod>")) ∧
    lastmodTag none = [] := by
  refine ⟨?_, ?_, ?_, ?_, ?_, rfl⟩
  · intro s hs hne
    have hid : identifierOf p = str ("product/") ++ encodeURIComponent s := by
      simp [identifierOf, hs, hne]
    simp [productEntry, hid, str]
  · intro hs
    have hid : identifierOf p = str ("product/") ++ p._id := by
      simp [identifierOf, hs]
    simp [productEntry, hid, str]
  · intro d hd; simp [jsNullish, hd]
  · intro hd; simp [jsNullish, hd]
  · intro d
    have h := isoDateOnly d
    simp only [lastmodTag, h, isoDatePart]

/-- C6 witness: the spec example `slug = "red shoes"`,
`updatedAt = 2024-01-15T10:00:00Z` yields the `product/red%20shoes` path
and `<lastmod>2024-01-15</lastmod>`. -/
theorem spec_C6_witness :
    productEntry (str ("https://besthaatbazar.com"))
        ⟨str ("65f"), some (str ("red shoes")), some ⟨2024, 1, 15, 10, 0, 0, 0⟩, none⟩ =
      urlEntry (jsStripTrailingSlash (str ("https://besthaatbazar.com")) ++ str ("/product/") ++
          encodeURIComponent (str ("red shoes")))
        (some ⟨2024, 1, 15, 10, 0, 0, 0⟩) (str ("weekly")) (str ("0.8")) ∧
    lastmodTag (some ⟨2024, 1, 15, 10, 0, 0, 0⟩) = str ("<lastmod>2024-01-15</lastmod>") := by
  have h := spec_C6_product_entries (str ("https://besthaatbazar.com"))
    ⟨str ("65f"), some (str ("red shoes")), some ⟨2024, 1, 15, 10, 0, 0, 0⟩, none⟩
  constructor
  · exact h.1 (str ("red shoes")) rfl (by decide)
  · rw [h.2.2.2.2.1 ⟨2024, 1, 15, 10, 0, 0, 0⟩]
    decide

/-- C7: with a string base URL — any string, well-formed or not — the
builder completes without raising (`buildSitemapXmlRun` returns `.ok`,
never `.error`), and the result is a string beginning with the XML
declaration. -/
theorem spec_C7_builder_total (base : List Char) (products : List CatalogItem) :
    buildSitemapXmlRun (.jsString base) (.ok products) = .ok (buildSitemapXml base products) ∧
    ∃ t, buildSitemapXml base products =
      str ("<?xml version=\"1.0\" encoding=\"UTF-8\"?>") ++ t :=
  ⟨rfl, buildSitemapXml_decl base products⟩

/-- C8: the builder reads neither the clock nor the cache slot, so two
calls under arbitrary different ambient worlds produce byte-identical
output. -/
theorem spec_C8_builder_deterministic (w₁ w₂ : World) (base : List Char)
    (products : List CatalogItem) :
    buildSitemapXmlInWorld w₁ base products = buildSitemapXmlInWorld w₂ base products := rfl

set_option maxRecDepth 100000 in
/-- C9: with zero catalog items the output is the XML declaration, one
`urlset` root in the sitemap namespace and exactly the twelve static-page
`url` entries; on the default base URL the document contains exactly one
`<urlset` open tag and twelve `<url>` children. -/
theorem spec_C9_empty_catalog :
    (∀ base, ∃ t, buildSitemapXml base [] =
        str ("<?xml version=\"1.0\" encoding=\"UTF-8\"?>") ++ t) ∧
    (∀ base, buildSitemapXml base [] =
        xmlHeader ++ List.intercalate (str ("\n")) (staticPages.map (staticEntry base)) ++
        str ("\n</urlset>")) ∧
    (∀ base, (staticPages.map (staticEntry base)).length = 12) ∧
    (∀ base p, p ∈ staticPages → staticEntry base p ∈ staticPages.map (staticEntry base)) ∧
    countSub (str ("<urlset")) (buildSitemapXml (str ("http://localhost:5173")) []) = 1 ∧
    countSub (str ("<url>")) (buildSitemapXml (str ("http://localhost:5173")) []) = 12 := by
  refine ⟨?_, ?_, ?_, ?_, by decide, by decide⟩
  · intro base
    exact buildSitemapXml_decl base []
  · intro base
    simp [buildSitemapXml]
  · intro base
    rw [List.length_map]
    rfl
  · intro base p hp
    exact List.mem_map_of_mem (staticEntry base) hp

/-- C9 witness: the root static page is one of the generated entries. -/
theorem spec_C9_witness :
    staticEntry (str ("http://localhost:5173")) ⟨str ("/"), str ("daily"), str ("1")⟩ ∈
      staticPages.map (staticEntry (str ("http://localhost:5173"))) :=
  spec_C9_empty_catalog.2.2.2.1 (str ("http://localhost:5173"))
    ⟨str ("/"), str ("daily"), str ("1")⟩ (by decide)

/-- C10: an item whose slug is the empty string is treated exactly like an
item with no slug — slug presence is decided by truthiness — and its
location path falls back to `product/` followed by the identifier. -/
theorem spec_C10_empty_slug (base idv : List Char) (u c : Option JsDate) :
    productEntry base ⟨idv, some [], u, c⟩ = productEntry base ⟨idv, none, u, c⟩ ∧
    identifierOf ⟨idv, some [], u, c⟩ = str ("product/") ++ idv := by
  constructor
  · simp [productEntry, identifierOf]
  · simp [identifierOf]

/-- C1: evaluating `serveSitemap` at the three points of the configured
fallback chain shows the chain never yields a document: with `SITE_URL`
set (first link) the assignment to the `const` binding throws; with only
`CLIENT_URL` set (second link) likewise; with neither set the default is
an array whose `replace` is not a function, so the rebuild throws inside
the builder.  Every case answers 500 with the cache slot untouched, so no
sitemap is ever built against any base URL. -/
theorem spec_C1_base_url_never_used :
    serveSitemap ⟨some (str ("https://besthaatbazar.com")), none, none⟩ ⟨none, 0⟩ 1000 1001
        (.ok []) =
      (.err 500 serverErrorBody, ⟨none, 0⟩,
        [str ("Error generating sitemap: Assignment to constant variable.")]) ∧
    serveSitemap ⟨none, some (str ("https://client.example")), none⟩ ⟨none, 0⟩ 1000 1001
        (.ok []) =
      (.err 500 serverErrorBody, ⟨none, 0⟩,
        [str ("Error generating sitemap: Assignment to constant variable.")]) ∧
    serveSitemap ⟨none, none, none⟩ ⟨none, 0⟩ 1000 1001 (.ok []) =
      (.err 500 serverErrorBody, ⟨none, 0⟩,
        [str ("Error generating sitemap: siteUrl.replace is not a function")]) :=
  ⟨rfl, rfl, rfl⟩

/-- C2: the fresh half of the cache claim holds — a non-expired entry is
returned unchanged with no catalog dependence — but the rebuild half
fails: on a cache miss with a successful catalog lookup the code answers
500 and stores nothing (the array-typed site URL makes the builder throw),
instead of building, storing and returning a document. -/
theorem spec_C2_cache_lifecycle :
    serveSitemap ⟨none, none, none⟩ ⟨some (str ("<cached/>")), 1000⟩ 1500 9999
        (.error (.jsError (str ("catalog down")))) =
      (.ok (str ("application/xml")) (str ("<cached/>")),
        ⟨some (str ("<cached/>")), 1000⟩, []) ∧
    serveSitemap ⟨none, none, none⟩ ⟨none, 0⟩ 5000 5001 (.ok []) =
      (.err 500 serverErrorBody, ⟨none, 0⟩,
        [str ("Error generating sitemap: siteUrl.replace is not a function")]) ∧
    serveSitemap ⟨none, none, none⟩ ⟨some (str ("<cached/>")), 0⟩ 3600000 3600001 (.ok []) =
      (.err 500 serverErrorBody, ⟨some (str ("<cached/>")), 0⟩,
        [str ("Error generating sitemap: siteUrl.replace is not a function")]) :=
  ⟨rfl, rfl, rfl⟩

/-- C4: whenever the cache is not fresh and the catalog lookup fails, the
request is answered with status 500 and the generic error body, exactly
one line is logged, and the cache slot is returned unchanged — no stale
entry is served, no partial entry is stored, and the single catalog
outcome is consumed once (no retry). -/
theorem spec_C4_catalog_failure (env : Env) (cache : SitemapCache)
    (now nowAfter : Int) (e : JsErr)
    (hmiss : sitemapCacheFresh env.SITEMAP_CACHE_TTL_MS cache now = false) :
    ∃ logLine, serveSitemap env cache now nowAfter (.error e) =
      (.err 500 serverErrorBody, cache, [logLine]) := by
  by_cases h1 : jsTruthyEnv env.SITE_URL
  · exact ⟨str ("Error generating sitemap: ") ++
        errMessage (.typeError (str ("Assignment to constant variable."))),
      by simp [serveSitemap, h1, sitemapCatch]⟩
  by_cases h2 : jsTruthyEnv env.CLIENT_URL
  · exact ⟨str ("Error generating sitemap: ") ++
        errMessage (.typeError (str ("Assignment to constant variable."))),
      by simp [serveSitemap, h1, h2, sitemapCatch]⟩
  · exact ⟨str ("Error generating sitemap: ") ++ errMessage e, by
      simp [serveSitemap, h1, h2, hmiss, sitemapRebuild, buildSitemapXmlRun, sitemapCatch]⟩

/-- C4 witness: a connectivity failure on an empty cache yields 500 and
leaves the slot empty. -/
theorem spec_C4_witness :
    sitemapCacheFresh none ⟨none, 0⟩ 0 = false ∧
    ∃ logLine, serveSitemap ⟨none, none, none⟩ ⟨none, 0⟩ 0 1
        (.error (.jsError (str ("connect ECONNREFUSED")))) =
      (.err 500 serverErrorBody, ⟨none, 0⟩, [logLine]) :=
  ⟨rfl, spec_C4_catalog_failure ⟨none, none, none⟩ ⟨none, 0⟩ 0 1
    (.jsError (str ("connect ECONNREFUSED"))) rfl⟩

/-- C5 counterexample: with the TTL variable set to the non-numeric
`"abc"`, `Number("abc")` is `NaN`, which is not the default the claim
promises (`parseTtl none`, i.e. 3,600,000); behaviorally, a zero-age cache
entry is treated as expired under `"abc"` although the unset-variable
default would treat it as fresh. -/
theorem spec_C5_counterexample :
    parseTtl (some (str ("abc"))) = JsTtl.nan ∧
    parseTtl none = JsTtl.num ⟨3600000, 1⟩ ∧
    parseTtl (some (str ("abc"))) ≠ parseTtl none ∧
    sitemapCacheFresh (some (str ("abc"))) ⟨some (str ("<x/>")), 1000⟩ 1000 = false ∧
    sitemapCacheFresh none ⟨some (str ("<x/>")), 1000⟩ 1000 = true :=
  ⟨rfl, rfl, by decide, rfl, rfl⟩

/-- C5 (amended): the TTL defaults to 3,600,000 ms when the variable is
unset or empty; a setting that `Number` parses as a number (decimal,
signed, fractional, exponent, or radix form) becomes the TTL; a setting
that `Number` parses as `NaN` makes every freshness comparison false, so
the cache is treated as expired on every request — no crash, but no
fallback to the default either. -/
theorem spec_C5_ttl_amended :
    parseTtl none = JsTtl.num ⟨3600000, 1⟩ ∧
    parseTtl (some []) = JsTtl.num ⟨3600000, 1⟩ ∧
    (∀ s q, s ≠ [] → jsNumberOfString s = JsTtl.num q →
      parseTtl (some s) = JsTtl.num q) ∧
    (∀ s, jsNumberOfString s = JsTtl.nan →
      parseTtl (some s) = JsTtl.nan ∧
      (∀ d : Int, jsLtTtl d (parseTtl (some s)) = false) ∧
      (∀ cache now, sitemapCacheFresh (some s) cache now = false)) := by
  refine ⟨rfl, rfl, ?_, ?_⟩
  · intro s q hne hq
    rw [parseTtl, if_neg hne, hq]
  · intro s hnan
    have hne : s ≠ [] := by
      intro he
      subst he
      exact JsTtl.noConfusion hnan
    have hp : parseTtl (some s) = JsTtl.nan := by
      rw [parseTtl, if_neg hne, hnan]
    refine ⟨hp, ?_, ?_⟩
    · intro d
      rw [hp]
      rfl
    · intro cache now
      cases hc : cache.cachedXml with
      | none => simp [sitemapCacheFresh, hc]
      | some c => simp [sitemapCacheFresh, hc, hp, jsLtTtl]

/-- C5 witness: the numeric exponent form `"1e3"` yields a working
1000 ms TTL, while the malformed `"abc"` yields `NaN` and a permanently
expired cache. -/
theorem spec_C5_witness :
    parseTtl (some (str ("1e3"))) = JsTtl.num ⟨1000, 1⟩ ∧
    parseTtl (some (str ("abc"))) = JsTtl.nan ∧
    sitemapCacheFresh (some (str ("abc"))) ⟨some (str ("<y/>")), 0⟩ 0 = false := by
  have h3 := spec_C5_ttl_amended.2.2.1 (str ("1e3")) ⟨1000, 1⟩ (by decide) (by decide)
  have h4 := spec_C5_ttl_amended.2.2.2 (str ("abc")) (by decide)
  exact ⟨h3, h4.1, h4.2.2 ⟨some (str ("<y/>")), 0⟩ 0⟩

end Sitemap
